import Mathlib

/-!
Shallow embedding of the farm application tracker (`app.py`): a SQLite-backed
store of five tables (fincas, lotes, mezclas, mezcla_productos, aplicaciones),
a seeding routine `init_db`, the plot-status query `lote_estado`, the
validate-and-insert POST branch of the `index` route, and the two reporting
aggregations.  REAL columns are modelled as rationals, TEXT as `String`,
INTEGER keys as `Nat`.
-/

/-- Row of the `fincas` table. -/
structure Finca where
  id : Nat
  nombre : String
  area_total : ℚ
deriving DecidableEq

/-- Row of the `lotes` table. -/
structure Lote where
  id : Nat
  finca_id : Nat
  nombre : String
  area_total : ℚ
deriving DecidableEq

/-- Row of the `mezclas` table. -/
structure Mezcla where
  id : Nat
  nombre : String
deriving DecidableEq

/-- Row of the `mezcla_productos` table. -/
structure MezclaProducto where
  id : Nat
  mezcla_id : Nat
  producto : String
  dosis_litros_manzana : ℚ
deriving DecidableEq

/-- Row of the `aplicaciones` table. -/
structure Aplicacion where
  id : Nat
  fecha : String
  finca_id : Nat
  lote_id : Nat
  mezcla_id : Nat
  manzanas_aplicadas : ℚ
deriving DecidableEq

/-- The database: the five tables, each a list of rows in insertion order. -/
structure Store where
  fincas : List Finca
  lotes : List Lote
  mezclas : List Mezcla
  mezcla_productos : List MezclaProducto
  aplicaciones : List Aplicacion
deriving DecidableEq

/-- The empty database (all five tables created, no rows). -/
def storeVacio : Store := ⟨[], [], [], [], []⟩

/-- Next AUTOINCREMENT primary key for a table whose current ids are `ids`. -/
def nextId (ids : List Nat) : Nat := ids.foldr max 0 + 1

/-- A parsed calendar date, as produced by `datetime.strptime(s, "%Y-%m-%d")`. -/
structure Fecha where
  anio : Nat
  mes : Nat
  dia : Nat
deriving DecidableEq

/-- Gregorian leap-year test used by `datetime.date`. -/
def esBisiesto (y : Nat) : Bool := y % 4 == 0 && (y % 100 != 0 || y % 400 == 0)

/-- Number of days in month `m` of year `y` (as validated by `datetime.date`). -/
def diasEnMes (y m : Nat) : Nat :=
  if m == 2 then (if esBisiesto y then 29 else 28)
  else if m == 4 || m == 6 || m == 9 || m == 11 then 30
  else 31

/-- Split a character list at the dashes (the separators of `%Y-%m-%d`). -/
def separaGuiones : List Char → List (List Char)
  | [] => [[]]
  | c :: rest =>
    let r := separaGuiones rest
    if c == '-' then [] :: r
    else
      match r with
      | [] => [[c]]
      | g :: gs => (c :: g) :: gs

/-- Numeric value of a list of ASCII digits. -/
def digitosANat (cs : List Char) : Nat :=
  cs.foldl (fun n c => 10 * n + (c.toNat - 48)) 0

/-- `datetime.strptime(s, "%Y-%m-%d")`: exactly four digits for the year, one
or two digits for month and day, separated by literal dashes, with nothing
left over; then the calendar validity checks of `datetime.date` (year at
least 1, month 1..12, day within the month).  Returns `none` when Python
raises `ValueError`.  (ASCII digits; exotic Unicode digit forms are out of
the model.) -/
def parseFecha (s : String) : Option Fecha :=
  match separaGuiones s.data with
  | [ys, ms, ds] =>
    if ys.length == 4 && ys.all Char.isDigit
        && decide (1 ≤ ms.length) && decide (ms.length ≤ 2) && ms.all Char.isDigit
        && decide (1 ≤ ds.length) && decide (ds.length ≤ 2) && ds.all Char.isDigit then
      let y := digitosANat ys
      let m := digitosANat ms
      let d := digitosANat ds
      if 1 ≤ y ∧ 1 ≤ m ∧ m ≤ 12 ∧ 1 ≤ d ∧ d ≤ diasEnMes y m then
        some ⟨y, m, d⟩
      else none
    else none
  | _ => none

/-- Left-pad the decimal rendering of `n` with zeros to width `w`. -/
def padCeros (w n : Nat) : String :=
  let s := toString n
  String.mk (List.replicate (w - s.length) '0') ++ s

/-- `date.isoformat()`: `YYYY-MM-DD` with zero padding. -/
def Fecha.iso (f : Fecha) : String :=
  padCeros 4 f.anio ++ "-" ++ padCeros 2 f.mes ++ "-" ++ padCeros 2 f.dia

/-- Status row of a plot, as returned by the `lote_estado` query:
`SELECT l.area_total, COALESCE(SUM(a.manzanas_aplicadas), 0) AS aplicadas,
l.area_total - COALESCE(SUM(a.manzanas_aplicadas), 0) AS restante`. -/
structure EstadoLote where
  area_total : ℚ
  aplicadas : ℚ
  restante : ℚ
deriving DecidableEq

/-- `COALESCE(SUM(a.manzanas_aplicadas), 0)` over the applications of plot
`lid`. -/
def aplicadas_lote (s : Store) (lid : Nat) : ℚ :=
  ((s.aplicaciones.filter (fun a => a.lote_id == lid)).map
    (·.manzanas_aplicadas)).sum

/-- The `lote_estado` query of `app.py`: `none` models the empty result set
(`fetchone()` returning `None`) when no plot has id `lid`; the surrounding
routes fail on that `None` (the spec's `NotFound`). -/
def lote_estado (s : Store) (lid : Nat) : Option EstadoLote :=
  (s.lotes.find? (fun l => l.id == lid)).map fun l =>
    ⟨l.area_total, aplicadas_lote s lid, l.area_total - aplicadas_lote s lid⟩

/-- Outcome of the POST branch of the `index` route, named after the spec's
error taxonomy.  `loteInexistente` models the `TypeError` the source raises
at `estado["restante"]` when `lote_estado` returned `None`: the request
fails and nothing is inserted. -/
inductive ResultadoRegistro where
  | ok : ResultadoRegistro
  | invalidDate : ResultadoRegistro
  | invalidArea : ResultadoRegistro
  | areaExceeded (manzanas restante : ℚ) : ResultadoRegistro
  | loteInexistente : ResultadoRegistro
deriving DecidableEq

/-- The validate-and-insert POST branch of the `index` route: parse the date
(`datetime.strptime`), read the plot status, reject `manzanas <= 0`, reject
`manzanas > restante`, otherwise INSERT the application row (denormalizing
`finca_id` next to `lote_id`) and commit. -/
def index_post (s : Store) (fecha_raw : String) (finca_id lote_id mezcla_id : Nat)
    (manzanas : ℚ) : Store × ResultadoRegistro :=
  match parseFecha fecha_raw with
  | none => (s, .invalidDate)
  | some fecha =>
    match lote_estado s lote_id with
    | none => (s, .loteInexistente)
    | some estado =>
      if manzanas ≤ 0 then (s, .invalidArea)
      else if manzanas > estado.restante then
        (s, .areaExceeded manzanas estado.restante)
      else
        ({ s with
            aplicaciones := s.aplicaciones ++
              [⟨nextId (s.aplicaciones.map (·.id)), fecha.iso,
                finca_id, lote_id, mezcla_id, manzanas⟩] },
         .ok)

/-- `float(request.form["manzanas"]) if request.form.get("manzanas") else 0`:
an absent (`none`) or empty field is treated as `0` without ever calling
`float`; a non-empty field goes through the caller-supplied float parser
(`none` modelling an uncaught `ValueError`). -/
def manzanasFormulario (parseFloat : String → Option ℚ) (campo : Option String) :
    Option ℚ :=
  match campo with
  | none => some 0
  | some raw => if raw == "" then some 0 else parseFloat raw

/-- Python `repr`/f-string rendering of a float whose value has a finite
decimal expansion (the only values the claims exercise): minimal decimal
digits with at least one digit after the point, e.g. `11 ↦ "11.0"`,
`1/100 ↦ "0.01"`.  Non-decimal rationals fall back to a fraction rendering
(outside the modelled fragment of Python float formatting). -/
def pyFloatRepr (q : ℚ) : String :=
  let sign := if q < 0 then "-" else ""
  let a := |q|
  match (List.range 18).find? (fun k => (a * (10 : ℚ) ^ k).den == 1) with
  | some k =>
    let m := (a * (10 : ℚ) ^ k).num.toNat
    if k == 0 then sign ++ toString m ++ ".0"
    else sign ++ toString (m / 10 ^ k) ++ "." ++ padCeros k (m % 10 ^ k)
  | none => sign ++ toString a.num.toNat ++ "/" ++ toString a.den

/-- Floor of a rational as an integer. -/
def entFloor (q : ℚ) : ℤ := Int.ediv q.num (q.den : ℤ)

/-- Round to the nearest integer, ties to the even integer (the rounding of
Python's fixed-point float formatting). -/
def redondeoMedioPar (q : ℚ) : ℤ :=
  let f := entFloor q
  let fr := q - (f : ℚ)
  if fr < 1 / 2 then f
  else if (1 : ℚ) / 2 < fr then f + 1
  else if f % 2 == 0 then f else f + 1

/-- Python `f"{q:.2f}"`: the value rounded to two decimal places and printed
with exactly two digits after the point. -/
def formato2f (q : ℚ) : String :=
  let sign := if q < 0 then "-" else ""
  let c := (redondeoMedioPar (|q| * 100)).toNat
  sign ++ toString (c / 100) ++ "." ++ padCeros 2 (c % 100)

/-- The flash message the `index` route emits for each outcome (the
`loteInexistente` crash emits none; rendered as the empty string). -/
def mensaje : ResultadoRegistro → String
  | .ok => "Aplicación guardada correctamente."
  | .invalidDate => "La fecha no tiene un formato válido."
  | .invalidArea => "Las manzanas aplicadas deben ser mayores que 0."
  | .areaExceeded manzanas restante =>
      "No se pueden aplicar " ++ pyFloatRepr manzanas ++
        " manzanas. Solo faltan " ++ formato2f restante ++ " en este lote."
  | .loteInexistente => ""

/-- The 10 seeded farms (`Finca 1` .. `Finca 10`, 70 manzanas each), with
AUTOINCREMENT ids starting at `start`. -/
def fincasSemilla (start : Nat) : List Finca :=
  (List.range 10).map fun i => ⟨start + i, "Finca " ++ toString (i + 1), 70⟩

/-- The 70 seeded plots: 7 per farm (`Lote 1` .. `Lote 7`, 10 manzanas each),
plot ids consecutive from `startLote` in insertion order, owning farm ids
consecutive from `startFinca`. -/
def lotesSemilla (startLote startFinca : Nat) : List Lote :=
  (List.range 10).flatMap fun i =>
    (List.range 7).map fun j =>
      ⟨startLote + 7 * i + j, startFinca + i, "Lote " ++ toString (j + 1), 10⟩

/-- `init_db`: creates the five tables if absent (implicit in the list
model), seeds the farms and their plots when the `fincas` table is empty,
and seeds the default mixture `Mezcla 1` with its three products (doses
1.5, 2.0, 0.5 litres per manzana) when the `mezclas` table is empty. -/
def init_db (s : Store) : Store :=
  let s1 :=
    if s.fincas.isEmpty then
      { s with
          fincas := s.fincas ++ fincasSemilla (nextId (s.fincas.map (·.id))),
          lotes := s.lotes ++
            lotesSemilla (nextId (s.lotes.map (·.id)))
              (nextId (s.fincas.map (·.id))) }
    else s
  if s1.mezclas.isEmpty then
    let mid := nextId (s1.mezclas.map (·.id))
    let base := nextId (s1.mezcla_productos.map (·.id))
    { s1 with
        mezclas := s1.mezclas ++ [⟨mid, "Mezcla 1"⟩],
        mezcla_productos := s1.mezcla_productos ++
          [⟨base, mid, "Producto A", 3 / 2⟩,
           ⟨base + 1, mid, "Producto B", 2⟩,
           ⟨base + 2, mid, "Producto C", 1 / 2⟩] }
  else s1

/-- The store produced by running `init_db` on an empty database: the state
the tests start from. -/
def storeInicial : Store := init_db storeVacio

/-- SQLite `ROUND(q, 2)`: two decimal places, ties away from zero. -/
def redondeo2 (q : ℚ) : ℚ :=
  (if 0 ≤ q then entFloor (q * 100 + 1 / 2) else -entFloor (-(q * 100) + 1 / 2)) / 100

/-- One row of the join
`aplicaciones JOIN fincas JOIN lotes JOIN mezcla_productos` underlying both
reporting queries (the totals query ignores the `finca`/`lote` components). -/
structure FilaJoin where
  finca : Finca
  lote : Lote
  mp : MezclaProducto
  apl : Aplicacion
deriving DecidableEq

/-- The join `FROM aplicaciones a JOIN fincas f ON f.id = a.finca_id
JOIN lotes l ON l.id = a.lote_id JOIN mezcla_productos mp ON
mp.mezcla_id = a.mezcla_id`. -/
def detalle_join (s : Store) : List FilaJoin :=
  s.aplicaciones.flatMap fun a =>
    (s.fincas.filter (fun f => f.id == a.finca_id)).flatMap fun f =>
      (s.lotes.filter (fun l => l.id == a.lote_id)).flatMap fun l =>
        (s.mezcla_productos.filter (fun mp => mp.mezcla_id == a.mezcla_id)).map
          fun mp => ⟨f, l, mp, a⟩

/-- The `GROUP BY f.id, l.id, mp.producto` key of a join row. -/
def claveDetalle (x : FilaJoin) : Nat × Nat × String :=
  (x.finca.id, x.lote.id, x.mp.producto)

/-- `SUM(a.manzanas_aplicadas * mp.dosis_litros_manzana)` over one detail
group. -/
def suma_detalle (s : Store) (k : Nat × Nat × String) : ℚ :=
  (((detalle_join s).filter (fun x => decide (claveDetalle x = k))).map
    (fun x => x.apl.manzanas_aplicadas * x.mp.dosis_litros_manzana)).sum

/-- An output row of `obtener_detalle_producto`.  The SELECT list has the
farm and plot names, the product and the litre total; the ids are carried
along because `ORDER BY f.id, l.id, mp.producto` sorts by them. -/
structure DetalleRow where
  finca_id : Nat
  finca : String
  lote_id : Nat
  lote : String
  producto : String
  litros_utilizados : ℚ
deriving DecidableEq

/-- The grouping key of an output row. -/
def claveFilaDetalle (row : DetalleRow) : Nat × Nat × String :=
  (row.finca_id, row.lote_id, row.producto)

/-- The distinct `GROUP BY` keys occurring in the join. -/
def grupos_detalle (s : Store) : List (Nat × Nat × String) :=
  ((detalle_join s).map claveDetalle).dedup

/-- The output row of one detail group: names taken from a representative
join row of the group (they are determined by the ids, which are primary
keys), litres `ROUND(SUM(...), 2)`. -/
def filaDetalle (s : Store) (k : Nat × Nat × String) : DetalleRow :=
  match (detalle_join s).find? (fun x => decide (claveDetalle x = k)) with
  | some x => ⟨k.1, x.finca.nombre, k.2.1, x.lote.nombre, k.2.2,
      redondeo2 (suma_detalle s k)⟩
  | none => ⟨k.1, "", k.2.1, "", k.2.2, redondeo2 (suma_detalle s k)⟩

/-- `ORDER BY f.id, l.id, mp.producto`: lexicographic on farm id, then plot
id, then product name. -/
def ordenDetalle (a b : DetalleRow) : Prop :=
  a.finca_id < b.finca_id ∨
    (a.finca_id = b.finca_id ∧
      (a.lote_id < b.lote_id ∨
        (a.lote_id = b.lote_id ∧ a.producto ≤ b.producto)))

instance : DecidableRel ordenDetalle := fun a b => by
  unfold ordenDetalle; infer_instance

instance : IsTotal DetalleRow ordenDetalle := by
  constructor
  intro a b
  unfold ordenDetalle
  rcases Nat.lt_trichotomy a.finca_id b.finca_id with h | h | h
  · exact Or.inl (Or.inl h)
  · rcases Nat.lt_trichotomy a.lote_id b.lote_id with h2 | h2 | h2
    · exact Or.inl (Or.inr ⟨h, Or.inl h2⟩)
    · rcases le_total a.producto b.producto with h3 | h3
      · exact Or.inl (Or.inr ⟨h, Or.inr ⟨h2, h3⟩⟩)
      · exact Or.inr (Or.inr ⟨h.symm, Or.inr ⟨h2.symm, h3⟩⟩)
    · exact Or.inr (Or.inr ⟨h.symm, Or.inl h2⟩)
  · exact Or.inr (Or.inl h)

instance : IsTrans DetalleRow ordenDetalle := by
  constructor
  intro a b c hab hbc
  unfold ordenDetalle at hab hbc ⊢
  rcases hab with h1 | ⟨e1, h1⟩ <;> rcases hbc with h2 | ⟨e2, h2⟩
  · exact Or.inl (by omega)
  · exact Or.inl (by omega)
  · exact Or.inl (by omega)
  · refine Or.inr ⟨by omega, ?_⟩
    rcases h1 with h1 | ⟨f1, h1⟩ <;> rcases h2 with h2 | ⟨f2, h2⟩
    · exact Or.inl (by omega)
    · exact Or.inl (by omega)
    · exact Or.inl (by omega)
    · exact Or.inr ⟨by omega, le_trans h1 h2⟩

/-- `obtener_detalle_producto`: group the join by (farm id, plot id,
product), aggregate, and order by farm id, plot id, product name. -/
def obtener_detalle_producto (s : Store) : List DetalleRow :=
  List.insertionSort ordenDetalle ((grupos_detalle s).map (filaDetalle s))

/-- An output row of `obtener_totales_producto`. -/
structure TotalRow where
  producto : String
  litros_totales : ℚ
deriving DecidableEq

/-- The join `FROM aplicaciones a JOIN mezcla_productos mp ON
mp.mezcla_id = a.mezcla_id` of the totals query. -/
def totales_join (s : Store) : List (MezclaProducto × Aplicacion) :=
  s.aplicaciones.flatMap fun a =>
    (s.mezcla_productos.filter (fun mp => mp.mezcla_id == a.mezcla_id)).map
      fun mp => (mp, a)

/-- `SUM(a.manzanas_aplicadas * mp.dosis_litros_manzana)` over one product
group of the totals query. -/
def suma_totales (s : Store) (p : String) : ℚ :=
  (((totales_join s).filter (fun x => decide (x.1.producto = p))).map
    (fun x => x.2.manzanas_aplicadas * x.1.dosis_litros_manzana)).sum

/-- The distinct `GROUP BY mp.producto` keys occurring in the totals join. -/
def grupos_totales (s : Store) : List String :=
  ((totales_join s).map (fun x => x.1.producto)).dedup

/-- `ORDER BY mp.producto`: ascending product name. -/
def ordenTotales (a b : TotalRow) : Prop := a.producto ≤ b.producto

instance : DecidableRel ordenTotales := fun a b => by
  unfold ordenTotales; infer_instance

instance : IsTotal TotalRow ordenTotales :=
  ⟨fun a b => le_total a.producto b.producto⟩

instance : IsTrans TotalRow ordenTotales :=
  ⟨fun _ _ _ h1 h2 => le_trans h1 h2⟩

/-- `obtener_totales_producto`: group the totals join by product, aggregate,
and order by product name. -/
def obtener_totales_producto (s : Store) : List TotalRow :=
  List.insertionSort ordenTotales
    ((grupos_totales s).map (fun p => ⟨p, redondeo2 (suma_totales s p)⟩))

example : parseFecha "2026-01-10" = some ⟨2026, 1, 10⟩ := by decide
example : parseFecha "2026-1-10" = some ⟨2026, 1, 10⟩ := by decide
example : parseFecha "2026-02-29" = none := by decide
example : parseFecha "2024-02-29" = some ⟨2024, 2, 29⟩ := by decide
example : parseFecha "hoy" = none := by decide
example : parseFecha "" = none := by decide
example : parseFecha "2026-01-10x" = none := by decide
example : (Fecha.iso ⟨2026, 1, 10⟩) = "2026-01-10" := by decide
example : storeInicial.fincas.length = 10 := by with_unfolding_all rfl
example : storeInicial.lotes.length = 70 := by with_unfolding_all rfl
example : storeInicial.aplicaciones = [] := by with_unfolding_all rfl
example : lote_estado storeInicial 1 = some ⟨10, 0, 10⟩ := by with_unfolding_all rfl
example : lote_estado storeInicial 71 = none := by with_unfolding_all rfl
example : pyFloatRepr 11 = "11.0" := by with_unfolding_all rfl
example : pyFloatRepr (1 / 100) = "0.01" := by with_unfolding_all rfl
example : formato2f 10 = "10.00" := by with_unfolding_all rfl
example : index_post storeInicial "2026-01-10" 1 1 1 11 =
    (storeInicial, .areaExceeded 11 10) := by with_unfolding_all rfl
example : (index_post storeInicial "2026-01-10" 2 1 1 1).2 = .ok := by
  with_unfolding_all rfl
example : mensaje (.areaExceeded 11 10) =
    "No se pueden aplicar 11.0 manzanas. Solo faltan 10.00 en este lote." := by
  with_unfolding_all rfl
example :
    obtener_totales_producto (index_post storeInicial "2026-01-10" 1 1 1 6).1 =
      [⟨"Producto A", 9⟩, ⟨"Producto B", 12⟩, ⟨"Producto C", 3⟩] := by
  with_unfolding_all rfl
example :
    (obtener_detalle_producto (index_post storeInicial "2026-01-10" 1 1 1 6).1).map
        (fun row => (row.finca, row.lote, row.producto, row.litros_utilizados)) =
      [("Finca 1", "Lote 1", "Producto A", 9), ("Finca 1", "Lote 1", "Producto B", 12),
        ("Finca 1", "Lote 1", "Producto C", 3)] := by
  with_unfolding_all rfl
example : redondeo2 (1119 / 200) = 560 / 100 := by with_unfolding_all rfl

/-- One submitted recording request (the POST form fields). -/
structure Solicitud where
  fecha_raw : String
  finca_id : Nat
  lote_id : Nat
  mezcla_id : Nat
  manzanas : ℚ
deriving DecidableEq

/-- Run a sequence of recording requests through the Recorder, keeping the
store each one leaves behind. -/
def aplicar_solicitudes (s : Store) : List Solicitud → Store
  | [] => s
  | r :: rest =>
    aplicar_solicitudes
      (index_post s r.fecha_raw r.finca_id r.lote_id r.mezcla_id r.manzanas).1
      rest

/-- The per-plot area invariant: on every plot, the accumulated applied area
never exceeds the plot's total area. -/
def Invariante (s : Store) : Prop :=
  ∀ l ∈ s.lotes, aplicadas_lote s l.id ≤ l.area_total

/-- The denormalization consistency check: every stored application's
`finca_id` equals the `finca_id` of the plot its `lote_id` references. -/
def consistencia_finca (s : Store) : Bool :=
  s.aplicaciones.all fun a =>
    match s.lotes.find? (fun l => l.id == a.lote_id) with
    | some l => a.finca_id == l.finca_id
    | none => true

lemma aplicadas_lote_append (s : Store) (a : Aplicacion) (lid : Nat) :
    aplicadas_lote { s with aplicaciones := s.aplicaciones ++ [a] } lid =
      aplicadas_lote s lid + (if a.lote_id = lid then a.manzanas_aplicadas else 0) := by
  unfold aplicadas_lote
  simp only [List.filter_append, List.map_append, List.sum_append]
  congr 1
  by_cases h : a.lote_id = lid
  · simp [h]
  · simp [h]

lemma aplicadas_lote_append_mismo (s : Store) (a : Aplicacion) (lid : Nat)
    (h : a.lote_id = lid) :
    aplicadas_lote { s with aplicaciones := s.aplicaciones ++ [a] } lid =
      aplicadas_lote s lid + a.manzanas_aplicadas := by
  rw [aplicadas_lote_append, if_pos h]

lemma aplicadas_lote_append_otro (s : Store) (a : Aplicacion) (lid : Nat)
    (h : ¬ a.lote_id = lid) :
    aplicadas_lote { s with aplicaciones := s.aplicaciones ++ [a] } lid =
      aplicadas_lote s lid := by
  rw [aplicadas_lote_append, if_neg h, add_zero]

lemma aplicadas_lote_vacio (s : Store) (lid : Nat) (h : s.aplicaciones = []) :
    aplicadas_lote s lid = 0 := by
  unfold aplicadas_lote
  rw [h]
  rfl

lemma lote_estado_some {s : Store} {lid : Nat} {e : EstadoLote}
    (h : lote_estado s lid = some e) :
    ∃ l, s.lotes.find? (fun x => x.id == lid) = some l ∧ l ∈ s.lotes ∧ l.id = lid ∧
      e = ⟨l.area_total, aplicadas_lote s lid, l.area_total - aplicadas_lote s lid⟩ := by
  unfold lote_estado at h
  cases hf : s.lotes.find? (fun x => x.id == lid) with
  | none => rw [hf] at h; simp at h
  | some l =>
    rw [hf] at h
    refine ⟨l, rfl, List.mem_of_find?_eq_some hf, ?_, ?_⟩
    · simpa using List.find?_some hf
    · simpa using h.symm

lemma find_por_id (lts : List Lote) (hn : (lts.map (·.id)).Nodup) (l : Lote)
    (hl : l ∈ lts) : lts.find? (fun x => x.id == l.id) = some l := by
  induction lts with
  | nil => cases hl
  | cons a t ih =>
    rw [List.map_cons, List.nodup_cons] at hn
    rcases List.mem_cons.mp hl with rfl | hm
    · rw [List.find?_cons_of_pos _ (by simp)]
    · have hne : a.id ≠ l.id := fun h => hn.1 (h ▸ List.mem_map_of_mem (·.id) hm)
      rw [List.find?_cons_of_neg _ (by simp [hne])]
      exact ih hn.2 hm

lemma index_post_caracterizacion (s : Store) (f : String) (fid lid mid : Nat)
    (m : ℚ) :
    ((index_post s f fid lid mid m).1 = s ∧
      (index_post s f fid lid mid m).2 ≠ .ok) ∨
    (∃ d e, parseFecha f = some d ∧ lote_estado s lid = some e ∧ 0 < m ∧
      m ≤ e.restante ∧
      (index_post s f fid lid mid m).1 =
        { s with aplicaciones := s.aplicaciones ++
            [⟨nextId (s.aplicaciones.map (·.id)), d.iso, fid, lid, mid, m⟩] } ∧
      (index_post s f fid lid mid m).2 = .ok) := by
  cases hp : parseFecha f with
  | none => refine Or.inl ⟨?_, ?_⟩ <;> simp [index_post, hp]
  | some d =>
    cases he : lote_estado s lid with
    | none => refine Or.inl ⟨?_, ?_⟩ <;> simp [index_post, hp, he]
    | some e =>
      by_cases hm : m ≤ 0
      · refine Or.inl ⟨?_, ?_⟩ <;> simp [index_post, hp, he, hm]
      · by_cases hr : m > e.restante
        · refine Or.inl ⟨?_, ?_⟩ <;> simp [index_post, hp, he, hm, hr]
        · refine Or.inr ⟨d, e, rfl, rfl, lt_of_not_le hm, le_of_not_lt hr, ?_, ?_⟩ <;>
            simp [index_post, hp, he, hm, hr]

lemma index_post_lotes (s : Store) (f : String) (fid lid mid : Nat) (m : ℚ) :
    (index_post s f fid lid mid m).1.lotes = s.lotes := by
  rcases index_post_caracterizacion s f fid lid mid m with ⟨h, -⟩ |
    ⟨d, e, -, -, -, -, h, -⟩
  · rw [h]
  · rw [h]

lemma lote_estado_despues_insercion (s : Store) (a : Aplicacion) (lid : Nat)
    (e : EstadoLote) (he : lote_estado s lid = some e) (ha : a.lote_id = lid) :
    lote_estado { s with aplicaciones := s.aplicaciones ++ [a] } lid =
      some ⟨e.area_total, e.aplicadas + a.manzanas_aplicadas,
        e.restante - a.manzanas_aplicadas⟩ := by
  obtain ⟨l, hf, -, -, rfl⟩ := lote_estado_some he
  unfold lote_estado
  have hlotes : ({ s with aplicaciones := s.aplicaciones ++ [a] } : Store).lotes
      = s.lotes := rfl
  rw [hlotes, hf, Option.map_some', aplicadas_lote_append_mismo s a lid ha]
  simp only [Option.some.injEq, EstadoLote.mk.injEq, true_and]
  ring

lemma paso_preserva_invariante (s : Store) (hn : (s.lotes.map (·.id)).Nodup)
    (hinv : Invariante s) (f : String) (fid lid mid : Nat) (m : ℚ) :
    Invariante (index_post s f fid lid mid m).1 := by
  rcases index_post_caracterizacion s f fid lid mid m with ⟨h, -⟩ |
    ⟨d, e, hd, he, hm, hr, h, -⟩
  · rw [h]; exact hinv
  · rw [h]
    intro l hl
    have hl' : l ∈ s.lotes := hl
    by_cases hid : lid = l.id
    · subst hid
      obtain ⟨l0, hf, -, -, rfl⟩ := lote_estado_some he
      rw [find_por_id s.lotes hn l hl'] at hf
      have hll : l = l0 := Option.some.inj hf
      rw [aplicadas_lote_append_mismo _ _ _ rfl]
      have h2 : aplicadas_lote s l.id ≤ l.area_total := hinv l hl'
      have h3 : m ≤ l0.area_total - aplicadas_lote s l.id := hr
      rw [← hll] at h3
      linarith
    · rw [aplicadas_lote_append_otro _ _ _ hid]
      exact hinv l hl'

/-- C1: the Recorder rejects an application strictly exceeding the remaining
area before inserting anything and accepts one equal to it (both facts are
the two outer branches of `index_post_caracterizacion`), so over any
sequence of Recorder steps starting from a store with no applications (and
the schema's well-formedness: distinct plot primary keys, nonnegative plot
areas), every plot's accumulated applied area stays at most its total
area. -/
theorem c1_suma_aplicada_acotada (s : Store)
    (hn : (s.lotes.map (·.id)).Nodup) (he : s.aplicaciones = [])
    (hpos : ∀ l ∈ s.lotes, 0 ≤ l.area_total) (reqs : List Solicitud) :
    Invariante (aplicar_solicitudes s reqs) := by
  have base : Invariante s := by
    intro l hl
    rw [aplicadas_lote_vacio s l.id he]
    exact hpos l hl
  clear he hpos
  induction reqs generalizing s with
  | nil => exact base
  | cons r rest ih =>
    show Invariante (aplicar_solicitudes _ rest)
    exact ih _ (by rw [index_post_lotes]; exact hn)
      (paso_preserva_invariante s hn base _ _ _ _ _)

/-- Witness for C1 at the seeded store and a concrete request list. -/
theorem c1_suma_aplicada_acotada_witness :
    (storeInicial.lotes.map (·.id)).Nodup ∧
    storeInicial.aplicaciones = [] ∧
    Invariante (aplicar_solicitudes storeInicial
      [⟨"2026-01-10", 1, 1, 1, 6⟩, ⟨"2026-01-11", 1, 1, 1, 7⟩]) :=
  ⟨of_decide_eq_true (by with_unfolding_all rfl),
   by with_unfolding_all rfl,
   c1_suma_aplicada_acotada storeInicial
     (of_decide_eq_true (by with_unfolding_all rfl))
     (by with_unfolding_all rfl)
     (of_decide_eq_true (by with_unfolding_all rfl))
     [⟨"2026-01-10", 1, 1, 1, 6⟩, ⟨"2026-01-11", 1, 1, 1, 7⟩]⟩

/-- C2: validation order is date, then positivity, then remaining area, the
first failure wins (an unparseable date wins even when the area is also
invalid, since no area check precedes the date check), and every failure
leaves the store untouched. -/
theorem c2_orden_validacion (s : Store) (f : String) (fid lid mid : Nat)
    (m : ℚ) :
    (parseFecha f = none → index_post s f fid lid mid m = (s, .invalidDate)) ∧
    (∀ d e, parseFecha f = some d → lote_estado s lid = some e → m ≤ 0 →
      index_post s f fid lid mid m = (s, .invalidArea)) ∧
    (∀ d e, parseFecha f = some d → lote_estado s lid = some e → 0 < m →
      e.restante < m →
      index_post s f fid lid mid m = (s, .areaExceeded m e.restante)) ∧
    ((index_post s f fid lid mid m).2 ≠ .ok →
      (index_post s f fid lid mid m).1 = s) := by
  refine ⟨?_, ?_, ?_, ?_⟩
  · intro h
    simp [index_post, h]
  · intro d e hd he hm
    simp [index_post, hd, he, hm]
  · intro d e hd he hm hr
    simp [index_post, hd, he, not_le.mpr hm, hr]
  · intro h
    rcases index_post_caracterizacion s f fid lid mid m with ⟨h1, -⟩ |
      ⟨-, -, -, -, -, -, -, h2⟩
    · exact h1
    · exact absurd h2 h

/-- Witness for C2: the three rejection shapes at concrete inputs. -/
theorem c2_orden_validacion_witness :
    index_post storeInicial "10-01-2026" 1 1 1 (-5) =
      (storeInicial, .invalidDate) ∧
    index_post storeInicial "2026-01-10" 1 1 1 (-5) =
      (storeInicial, .invalidArea) ∧
    index_post storeInicial "2026-01-10" 1 1 1 11 =
      (storeInicial, .areaExceeded 11 10) ∧
    (index_post storeInicial "2026-01-10" 1 1 1 11).1 = storeInicial :=
  ⟨(c2_orden_validacion storeInicial "10-01-2026" 1 1 1 (-5)).1
     (by with_unfolding_all rfl),
   (c2_orden_validacion storeInicial "2026-01-10" 1 1 1 (-5)).2.1
     ⟨2026, 1, 10⟩ ⟨10, 0, 10⟩ (by with_unfolding_all rfl)
     (by with_unfolding_all rfl) (by norm_num),
   (c2_orden_validacion storeInicial "2026-01-10" 1 1 1 11).2.2.1
     ⟨2026, 1, 10⟩ ⟨10, 0, 10⟩ (by with_unfolding_all rfl)
     (by with_unfolding_all rfl) (by norm_num) (by norm_num),
   (c2_orden_validacion storeInicial "2026-01-10" 1 1 1 11).2.2.2
     (of_decide_eq_true (by with_unfolding_all rfl))⟩

/-- C4: the plot status query yields no row exactly when the plot id does
not exist (the request layer surfaces that as the `NotFound` failure), and
for an existing plot id it yields the
`(totalArea, appliedArea, remainingArea)` triple. -/
theorem c4_estado_o_inexistente (s : Store) (lid : Nat) :
    (lote_estado s lid = none ↔ ∀ l ∈ s.lotes, l.id ≠ lid) ∧
    ((∃ l ∈ s.lotes, l.id = lid) → ∃ est, lote_estado s lid = some est) ∧
    (∀ l, s.lotes.find? (fun x => x.id == lid) = some l →
      lote_estado s lid =
        some ⟨l.area_total, aplicadas_lote s lid,
          l.area_total - aplicadas_lote s lid⟩) := by
  have h1 : lote_estado s lid = none ↔ ∀ l ∈ s.lotes, l.id ≠ lid := by
    unfold lote_estado
    rw [Option.map_eq_none', List.find?_eq_none]
    simp
  refine ⟨h1, ?_, ?_⟩
  · rintro ⟨l, hl, rfl⟩
    cases hq : lote_estado s l.id with
    | none => exact absurd rfl (h1.mp hq l hl)
    | some est => exact ⟨est, rfl⟩
  · intro l hf
    unfold lote_estado
    rw [hf, Option.map_some']

/-- Witness for C4: a missing id yields no row, an existing one a row. -/
theorem c4_estado_o_inexistente_witness :
    lote_estado storeInicial 999 = none ∧
    (∃ est, lote_estado storeInicial 1 = some est) :=
  ⟨(c4_estado_o_inexistente storeInicial 999).1.mpr
     (of_decide_eq_true (by with_unfolding_all rfl)),
   (c4_estado_o_inexistente storeInicial 1).2.1
     ⟨⟨1, 1, "Lote 1", 10⟩, of_decide_eq_true (by with_unfolding_all rfl), rfl⟩⟩

/-- C9: whenever the status query returns a row, applied plus remaining
equals the total area (this is an identity of the query, so it holds in
every store, in particular after any sequence of accepted applications),
and the applied area is 0 when the plot has no application rows. -/
theorem c9_aplicadas_mas_restante (s : Store) (lid : Nat) (e : EstadoLote)
    (he : lote_estado s lid = some e) :
    e.aplicadas + e.restante = e.area_total ∧
    ((∀ a ∈ s.aplicaciones, a.lote_id ≠ lid) → e.aplicadas = 0) := by
  obtain ⟨l, -, -, -, rfl⟩ := lote_estado_some he
  constructor
  · show aplicadas_lote s lid + (l.area_total - aplicadas_lote s lid)
      = l.area_total
    ring
  · intro h
    show aplicadas_lote s lid = 0
    unfold aplicadas_lote
    rw [List.filter_eq_nil_iff.mpr (fun a ha => by simpa using h a ha)]
    rfl

/-- Witness for C9 at the fresh seeded store. -/
theorem c9_aplicadas_mas_restante_witness :
    ((⟨10, 0, 10⟩ : EstadoLote).aplicadas + (⟨10, 0, 10⟩ : EstadoLote).restante
      = (⟨10, 0, 10⟩ : EstadoLote).area_total) ∧
    (⟨10, 0, 10⟩ : EstadoLote).aplicadas = 0 :=
  ⟨(c9_aplicadas_mas_restante storeInicial 1 ⟨10, 0, 10⟩
      (by with_unfolding_all rfl)).1,
   (c9_aplicadas_mas_restante storeInicial 1 ⟨10, 0, 10⟩
      (by with_unfolding_all rfl)).2
     (of_decide_eq_true (by with_unfolding_all rfl))⟩

/-- C7: a recording that is a well-formed application event (parseable date,
strictly positive area, as the data model requires of an application) whose
area equals the current remaining area is accepted and drives the remaining
area to 0; afterwards every recording with strictly positive area on that
plot is rejected and leaves the store unchanged, and with a parseable date
the rejection is `AreaExceeded` carrying remaining area 0. -/
theorem c7_igual_al_restante (s : Store) (f : String) (d : Fecha)
    (hf : parseFecha f = some d) (fid lid mid : Nat) (e : EstadoLote)
    (he : lote_estado s lid = some e) (m : ℚ) (hm : 0 < m)
    (hme : m = e.restante) :
    (index_post s f fid lid mid m).2 = .ok ∧
    lote_estado (index_post s f fid lid mid m).1 lid =
      some ⟨e.area_total, e.aplicadas + m, 0⟩ ∧
    (∀ f2 fid2 mid2 (m2 : ℚ), 0 < m2 →
      (index_post (index_post s f fid lid mid m).1 f2 fid2 lid mid2 m2).2
        ≠ .ok ∧
      (index_post (index_post s f fid lid mid m).1 f2 fid2 lid mid2 m2).1
        = (index_post s f fid lid mid m).1) ∧
    (∀ f2 d2 fid2 mid2 (m2 : ℚ), parseFecha f2 = some d2 → 0 < m2 →
      (index_post (index_post s f fid lid mid m).1 f2 fid2 lid mid2 m2).2
        = .areaExceeded m2 0) := by
  have hok : index_post s f fid lid mid m =
      ({ s with aplicaciones := s.aplicaciones ++
          [⟨nextId (s.aplicaciones.map (·.id)), d.iso, fid, lid, mid, m⟩] },
       .ok) := by
    simp [index_post, hf, he, not_le.mpr hm, not_lt.mpr (le_of_eq hme)]
  have h1 : (index_post s f fid lid mid m).1 =
      { s with aplicaciones := s.aplicaciones ++
          [⟨nextId (s.aplicaciones.map (·.id)), d.iso, fid, lid, mid, m⟩] } := by
    rw [hok]
  have hll : lote_estado (index_post s f fid lid mid m).1 lid =
      some ⟨e.area_total, e.aplicadas + m, 0⟩ := by
    rw [h1, lote_estado_despues_insercion s _ lid e he rfl, hme, sub_self]
  refine ⟨by rw [hok], hll, ?_, ?_⟩
  · intro f2 fid2 mid2 m2 hm2
    revert hll
    generalize (index_post s f fid lid mid m).1 = s2
    intro hll
    cases hp2 : parseFecha f2 with
    | none => refine ⟨?_, ?_⟩ <;> simp [index_post, hp2]
    | some d2 =>
      refine ⟨?_, ?_⟩ <;> simp [index_post, hp2, hll, not_le.mpr hm2, hm2]
  · intro f2 d2 fid2 mid2 m2 hp2 hm2
    revert hll
    generalize (index_post s f fid lid mid m).1 = s2
    intro hll
    simp [index_post, hp2, hll, not_le.mpr hm2, hm2]

/-- Witness for C7: fill plot 1 of the fresh store exactly (area 10), then
a 0.01-manzana recording is rejected with remaining 0. -/
theorem c7_igual_al_restante_witness :
    (index_post storeInicial "2026-01-10" 1 1 1 10).2 = .ok ∧
    lote_estado (index_post storeInicial "2026-01-10" 1 1 1 10).1 1 =
      some ⟨10, 0 + 10, 0⟩ ∧
    (index_post (index_post storeInicial "2026-01-10" 1 1 1 10).1
        "2026-01-11" 1 1 1 (1 / 100)).2 = .areaExceeded (1 / 100) 0 :=
  let t := c7_igual_al_restante storeInicial "2026-01-10" ⟨2026, 1, 10⟩
    (by with_unfolding_all rfl) 1 1 1 ⟨10, 0, 10⟩ (by with_unfolding_all rfl)
    10 (by norm_num) rfl
  ⟨t.1, t.2.1,
   t.2.2.2 "2026-01-11" ⟨2026, 1, 11⟩ 1 1 (1 / 100)
     (by with_unfolding_all rfl) (by norm_num)⟩

/-- C6: the `AreaExceeded` flash message is exactly the template
`No se pueden aplicar ... manzanas. Solo faltan ... en este lote.` with the
area slot rendered as Python renders the float and the remaining slot
rendered to two decimal places; on the fresh seed, recording 11 manzanas on
plot 1 is rejected as `AreaExceeded 11 10`, whose message contains
`Solo faltan 10.00 en este lote`. -/
theorem c6_mensaje_area_excedida :
    (∀ (m r : ℚ), mensaje (.areaExceeded m r) =
      "No se pueden aplicar " ++ pyFloatRepr m ++ " manzanas. Solo faltan " ++
        formato2f r ++ " en este lote.") ∧
    index_post storeInicial "2026-01-10" 1 1 1 11 =
      (storeInicial, .areaExceeded 11 10) ∧
    mensaje (.areaExceeded 11 10) =
      "No se pueden aplicar 11.0 manzanas. " ++
        "Solo faltan 10.00 en este lote" ++ "." :=
  ⟨fun m r => rfl, by with_unfolding_all rfl, by with_unfolding_all rfl⟩

/-- C10: an absent or empty area field is turned into the number 0 without
any float parsing, and a 0-area submission with a parseable date on an
existing plot is rejected through the `InvalidArea` path with the standard
message, leaving the store unchanged. -/
theorem c10_area_ausente (pf : String → Option ℚ) (s : Store) (f : String)
    (d : Fecha) (fid lid mid : Nat) (e : EstadoLote) :
    manzanasFormulario pf none = some 0 ∧
    manzanasFormulario pf (some "") = some 0 ∧
    (parseFecha f = some d → lote_estado s lid = some e →
      index_post s f fid lid mid 0 = (s, .invalidArea)) ∧
    mensaje .invalidArea = "Las manzanas aplicadas deben ser mayores que 0." := by
  refine ⟨rfl, rfl, ?_, rfl⟩
  intro hd he
  simp [index_post, hd, he]

/-- Witness for C10 at the fresh seeded store. -/
theorem c10_area_ausente_witness :
    manzanasFormulario (fun _ => none) none = some 0 ∧
    manzanasFormulario (fun _ => none) (some "") = some 0 ∧
    index_post storeInicial "2026-01-10" 1 1 1 0 =
      (storeInicial, .invalidArea) :=
  let t := c10_area_ausente (fun _ => none) storeInicial "2026-01-10"
    ⟨2026, 1, 10⟩ 1 1 1 ⟨10, 0, 10⟩
  ⟨t.1, t.2.1,
   t.2.2.1 (by with_unfolding_all rfl) (by with_unfolding_all rfl)⟩

/-- C5 counterexample: the route inserts whatever `finca_id` the form
submitted, with no check that the plot belongs to that farm.  Submitting
farm 2 with plot 1 (which belongs to farm 1) on the fresh seed is accepted,
and the stored row violates
`application.finca_id = plot(application.lote_id).finca_id`. -/
theorem c5_contraejemplo :
    (index_post storeInicial "2026-01-10" 2 1 1 1).2 = .ok ∧
    (index_post storeInicial "2026-01-10" 2 1 1 1).1.aplicaciones =
      [⟨1, "2026-01-10", 2, 1, 1, 1⟩] ∧
    storeInicial.lotes.find? (fun l => l.id == 1) = some ⟨1, 1, "Lote 1", 10⟩ ∧
    consistencia_finca (index_post storeInicial "2026-01-10" 2 1 1 1).1
      = false :=
  of_decide_eq_true (by with_unfolding_all rfl)

/-- C5 amended: an accepted recording stores the submitted `finca_id`
verbatim next to the `lote_id` (both columns are populated at insert time),
and the consistency invariant
`application.finca_id = plot(application.lote_id).finca_id` is preserved
exactly when the submitted `finca_id` matches the plot's owning farm — the
Recorder itself never validates this, so a mismatched submission is
accepted and breaks the invariant (see the counterexample). -/
theorem c5_finca_copiada (s : Store) (f : String) (fid lid mid : Nat)
    (m : ℚ) :
    ((index_post s f fid lid mid m).2 = .ok →
      ∃ d, parseFecha f = some d ∧
        (index_post s f fid lid mid m).1.aplicaciones =
          s.aplicaciones ++
            [⟨nextId (s.aplicaciones.map (·.id)), d.iso, fid, lid, mid, m⟩]) ∧
    (consistencia_finca s = true →
      (∀ l, s.lotes.find? (fun x => x.id == lid) = some l → fid = l.finca_id) →
      consistencia_finca (index_post s f fid lid mid m).1 = true) := by
  constructor
  · intro hok
    rcases index_post_caracterizacion s f fid lid mid m with ⟨-, hne⟩ |
      ⟨d, e, hd, -, -, -, h1, -⟩
    · exact absurd hok hne
    · exact ⟨d, hd, by rw [h1]⟩
  · intro hc hfid
    rcases index_post_caracterizacion s f fid lid mid m with ⟨h1, -⟩ |
      ⟨d, e, hd, he, -, -, h1, -⟩
    · rw [h1]; exact hc
    · rw [h1]
      obtain ⟨l0, hf0, -, -, -⟩ := lote_estado_some he
      unfold consistencia_finca at hc ⊢
      simp only [List.all_append, List.all_cons, List.all_nil, Bool.and_true,
        Bool.and_eq_true]
      refine ⟨hc, ?_⟩
      rw [hf0]
      simp [hfid l0 hf0]

/-- Witness for the amended C5 at a matching submission. -/
theorem c5_finca_copiada_witness :
    (∃ d, parseFecha "2026-01-10" = some d ∧
      (index_post storeInicial "2026-01-10" 1 1 1 6).1.aplicaciones =
        storeInicial.aplicaciones ++
          [⟨nextId (storeInicial.aplicaciones.map (·.id)), d.iso, 1, 1, 1, 6⟩]) ∧
    consistencia_finca (index_post storeInicial "2026-01-10" 1 1 1 6).1
      = true :=
  ⟨(c5_finca_copiada storeInicial "2026-01-10" 1 1 1 6).1
     (of_decide_eq_true (by with_unfolding_all rfl)),
   (c5_finca_copiada storeInicial "2026-01-10" 1 1 1 6).2
     (of_decide_eq_true (by with_unfolding_all rfl))
     (fun l hl => by
       rw [show storeInicial.lotes.find? (fun x => x.id == 1) =
           some ⟨1, 1, "Lote 1", 10⟩ by with_unfolding_all rfl] at hl
       rw [← Option.some.inj hl])⟩

/-- A database state with farms but no mixtures (for the C8
counterexample). -/
def storeDesfasado : Store := ⟨[⟨1, "Finca 1", 70⟩], [], [], [], []⟩

/-- C8 counterexample: on a non-empty database (its Farm table holds one
row) whose Mixture table is empty, `init_db` is not a no-op: it seeds the
default mixture even though the Farm table is not empty, because mixture
seeding is keyed on the Mixture table's own emptiness. -/
theorem c8_contraejemplo :
    storeDesfasado.fincas ≠ [] ∧
    storeDesfasado.mezclas = [] ∧
    (init_db storeDesfasado).fincas = storeDesfasado.fincas ∧
    (init_db storeDesfasado).mezclas = [⟨1, "Mezcla 1"⟩] ∧
    init_db storeDesfasado ≠ storeDesfasado :=
  of_decide_eq_true (by with_unfolding_all rfl)

lemma init_db_fincas_noop (s : Store) (h : ¬ s.fincas = []) :
    (init_db s).fincas = s.fincas ∧ (init_db s).lotes = s.lotes := by
  have h1 : s.fincas.isEmpty = false := by simp [List.isEmpty_iff, h]
  simp only [init_db, h1, Bool.false_eq_true, if_false]
  constructor <;> (split <;> rfl)

lemma init_db_mezclas_noop (s : Store) (h : ¬ s.mezclas = []) :
    (init_db s).mezclas = s.mezclas ∧
    (init_db s).mezcla_productos = s.mezcla_productos := by
  have h1 : s.mezclas.isEmpty = false := by simp [List.isEmpty_iff, h]
  simp only [init_db]
  split <;> simp [h1]

lemma init_db_noop (s : Store) (hf : ¬ s.fincas = []) (hm : ¬ s.mezclas = []) :
    init_db s = s := by
  have h1 : s.fincas.isEmpty = false := by simp [List.isEmpty_iff, hf]
  have h2 : s.mezclas.isEmpty = false := by simp [List.isEmpty_iff, hm]
  simp [init_db, h1, h2]

lemma init_db_fincas_ne (s : Store) : (init_db s).fincas ≠ [] := by
  by_cases h : s.fincas = []
  · have h1 : s.fincas.isEmpty = true := by simp [h]
    simp only [init_db, h1, if_true]
    split <;> simp [h, fincasSemilla]
  · rw [(init_db_fincas_noop s h).1]; exact h

lemma init_db_mezclas_ne (s : Store) : (init_db s).mezclas ≠ [] := by
  simp only [init_db]
  split <;> split
  · simp
  · next h2 => simpa [List.isEmpty_iff] using h2
  · simp
  · next h2 => simpa [List.isEmpty_iff] using h2

lemma init_db_idem (s : Store) : init_db (init_db s) = init_db s :=
  init_db_noop _ (init_db_fincas_ne s) (init_db_mezclas_ne s)

/-- C8 amended: initializing an empty store seeds exactly 10 farms of 70
manzanas, 7 plots of 10 manzanas per farm, and one default mixture with
doses 1.5, 2.0 and 0.5; farm-and-plot seeding happens only when the Farm
table is empty and mixture seeding only when the Mixture table is empty
(each group keyed on its own emptiness check), so re-running against a
database where both tables are non-empty — in particular any previously
initialized one — is a no-op.  (Table creation is implicit in the list
model.) -/
theorem c8_inicializacion :
    storeInicial.fincas.length = 10 ∧
    (∀ f ∈ storeInicial.fincas, f.area_total = 70) ∧
    storeInicial.lotes.length = 70 ∧
    (∀ f ∈ storeInicial.fincas,
      (storeInicial.lotes.filter (fun l => l.finca_id == f.id)).length = 7) ∧
    (∀ l ∈ storeInicial.lotes, l.area_total = 10) ∧
    storeInicial.mezclas = [⟨1, "Mezcla 1"⟩] ∧
    storeInicial.mezcla_productos.map
        (fun mp => (mp.mezcla_id, mp.producto, mp.dosis_litros_manzana)) =
      [(1, "Producto A", 3 / 2), (1, "Producto B", 2),
        (1, "Producto C", 1 / 2)] ∧
    storeInicial.aplicaciones = [] ∧
    (∀ s : Store, s.fincas ≠ [] →
      (init_db s).fincas = s.fincas ∧ (init_db s).lotes = s.lotes) ∧
    (∀ s : Store, s.mezclas ≠ [] →
      (init_db s).mezclas = s.mezclas ∧
      (init_db s).mezcla_productos = s.mezcla_productos) ∧
    (∀ s : Store, s.fincas ≠ [] → s.mezclas ≠ [] → init_db s = s) ∧
    (∀ s : Store, init_db (init_db s) = init_db s) :=
  ⟨of_decide_eq_true (by with_unfolding_all rfl),
   of_decide_eq_true (by with_unfolding_all rfl),
   of_decide_eq_true (by with_unfolding_all rfl),
   of_decide_eq_true (by with_unfolding_all rfl),
   of_decide_eq_true (by with_unfolding_all rfl),
   by with_unfolding_all rfl,
   by with_unfolding_all rfl,
   by with_unfolding_all rfl,
   fun s h => init_db_fincas_noop s h,
   fun s h => init_db_mezclas_noop s h,
   fun s hf hm => init_db_noop s hf hm,
   init_db_idem⟩

/-- Witness for the amended C8: re-running `init_db` on the seeded store is
a no-op. -/
theorem c8_inicializacion_witness :
    init_db storeInicial = storeInicial ∧
    (init_db storeDesfasado).fincas = storeDesfasado.fincas :=
  ⟨(c8_inicializacion).2.2.2.2.2.2.2.2.2.2.1 storeInicial
     (of_decide_eq_true (by with_unfolding_all rfl))
     (of_decide_eq_true (by with_unfolding_all rfl)),
   ((c8_inicializacion).2.2.2.2.2.2.2.2.1 storeDesfasado
     (of_decide_eq_true (by with_unfolding_all rfl))).1⟩

lemma filaDetalle_clave (s : Store) (k : Nat × Nat × String) :
    claveFilaDetalle (filaDetalle s k) = k := by
  unfold filaDetalle claveFilaDetalle
  split <;> rfl

lemma filaDetalle_litros (s : Store) (k : Nat × Nat × String) :
    (filaDetalle s k).litros_utilizados = redondeo2 (suma_detalle s k) := by
  unfold filaDetalle
  split <;> rfl

/-- C3: for every store, the Detail projection is sorted by farm id, then
plot id, then product name; every row's litres figure is
`ROUND(SUM(areaApplied * dosePerAreaUnit), 2)` over its
`(farm, plot, product)` group of the join; and the rows are exactly the
distinct group keys occurring in the join (one row per key, by the
permutation with the deduplicated key list).  Likewise the Totals
projection, grouped and ordered by product name.  Both are plain functions
of the store: they return row lists and never modify it. -/
theorem c3_proyecciones (s : Store) :
    List.Sorted ordenDetalle (obtener_detalle_producto s) ∧
    (∀ row ∈ obtener_detalle_producto s,
      row.litros_utilizados =
        redondeo2 (suma_detalle s (claveFilaDetalle row))) ∧
    ((obtener_detalle_producto s).map claveFilaDetalle).Perm
      ((detalle_join s).map claveDetalle).dedup ∧
    List.Sorted ordenTotales (obtener_totales_producto s) ∧
    (∀ row ∈ obtener_totales_producto s,
      row.litros_totales = redondeo2 (suma_totales s row.producto)) ∧
    ((obtener_totales_producto s).map (fun row => row.producto)).Perm
      ((totales_join s).map (fun x => x.1.producto)).dedup := by
  refine ⟨List.sorted_insertionSort ordenDetalle _, ?_, ?_,
    List.sorted_insertionSort ordenTotales _, ?_, ?_⟩
  · intro row hrow
    unfold obtener_detalle_producto at hrow
    have hmem : row ∈ (grupos_detalle s).map (filaDetalle s) :=
      (List.perm_insertionSort ordenDetalle _).mem_iff.mp hrow
    obtain ⟨k, -, rfl⟩ := List.mem_map.mp hmem
    rw [filaDetalle_clave]
    exact filaDetalle_litros s k
  · have h1 : ((obtener_detalle_producto s).map claveFilaDetalle).Perm
        (((grupos_detalle s).map (filaDetalle s)).map claveFilaDetalle) :=
      (List.perm_insertionSort ordenDetalle _).map claveFilaDetalle
    have h2 : ((grupos_detalle s).map (filaDetalle s)).map claveFilaDetalle
        = grupos_detalle s := by
      rw [List.map_map]
      have h3 : List.map (claveFilaDetalle ∘ filaDetalle s) (grupos_detalle s)
          = List.map id (grupos_detalle s) :=
        List.map_congr_left (fun k _ => filaDetalle_clave s k)
      rw [h3, List.map_id]
    rw [h2] at h1
    exact h1
  · intro row hrow
    unfold obtener_totales_producto at hrow
    have hmem : row ∈ (grupos_totales s).map
        (fun p => (⟨p, redondeo2 (suma_totales s p)⟩ : TotalRow)) :=
      (List.perm_insertionSort ordenTotales _).mem_iff.mp hrow
    obtain ⟨p, -, rfl⟩ := List.mem_map.mp hmem
    rfl
  · have h1 : ((obtener_totales_producto s).map (fun row => row.producto)).Perm
        (((grupos_totales s).map
          (fun p => (⟨p, redondeo2 (suma_totales s p)⟩ : TotalRow))).map
            (fun row => row.producto)) :=
      (List.perm_insertionSort ordenTotales _).map _
    have h2 : ((grupos_totales s).map
        (fun p => (⟨p, redondeo2 (suma_totales s p)⟩ : TotalRow))).map
          (fun row => row.producto) = grupos_totales s := by
      rw [List.map_map]
      have h3 : List.map ((fun row : TotalRow => row.producto) ∘
            fun p => (⟨p, redondeo2 (suma_totales s p)⟩ : TotalRow))
          (grupos_totales s) = List.map id (grupos_totales s) :=
        List.map_congr_left (fun p _ => rfl)
      rw [h3, List.map_id]
    rw [h2] at h1
    exact h1

/-- Witness for C3: the aggregated figures of the test scenario (6 manzanas
of the default mixture on plot 1: 9 litres of `Producto A`). -/
theorem c3_proyecciones_witness :
    (⟨1, "Finca 1", 1, "Lote 1", "Producto A", 9⟩ :
        DetalleRow).litros_utilizados =
      redondeo2 (suma_detalle (index_post storeInicial "2026-01-10" 1 1 1 6).1
        (claveFilaDetalle ⟨1, "Finca 1", 1, "Lote 1", "Producto A", 9⟩)) ∧
    (⟨"Producto A", 9⟩ : TotalRow).litros_totales =
      redondeo2 (suma_totales (index_post storeInicial "2026-01-10" 1 1 1 6).1
        "Producto A") :=
  ⟨(c3_proyecciones (index_post storeInicial "2026-01-10" 1 1 1 6).1).2.1
     ⟨1, "Finca 1", 1, "Lote 1", "Producto A", 9⟩
     (of_decide_eq_true (by with_unfolding_all rfl)),
   (c3_proyecciones (index_post storeInicial "2026-01-10" 1 1 1 6).1).2.2.2.2.1
     ⟨"Producto A", 9⟩
     (of_decide_eq_true (by with_unfolding_all rfl))⟩

/-- Witness for C6: the template instantiated at the test scenario's
numbers. -/
theorem c6_mensaje_area_excedida_witness :
    mensaje (.areaExceeded 11 10) =
      "No se pueden aplicar " ++ pyFloatRepr 11 ++ " manzanas. Solo faltan " ++
        formato2f 10 ++ " en este lote." :=
  (c6_mensaje_area_excedida).1 11 10
